import Mathlib

/-!
Verification of the `amethyst_config` configuration-loading layer.

The crate root (`src/amethyst_config/src/lib.rs`) documents the behaviour of
the engine and declares the `DisplayConfig` and `LoggingConfig` schemas; the
engine modules themselves (`definitions.rs`, `yaml.rs`, the `config!` macro
expansion) are not part of the provided sources, so the engine is modelled
from the specification and checked against it.  `f64` values are modelled as
rationals: every numeric literal appearing in the schemas and claims (`1.0`,
`0.5`) is exactly representable, so no behaviour relevant to the claims is
lost.  File-system access of the extern resolver is modelled as an explicit
function from paths to "absent / present-but-unparsable / parsed root node".
-/

namespace Amethyst

/-- Modelled from the spec: the Document Node of §3, a tagged variant over
Null, Bool, Integer, Float, String, Sequence and Mapping, as produced by the
external YAML parser (`yaml.rs` is not under the provided sources).  Floats
are represented as rationals. -/
inductive Yaml where
  | null : Yaml
  | bool (b : Bool) : Yaml
  | int (i : Int) : Yaml
  | real (r : ℚ) : Yaml
  | str (s : String) : Yaml
  | seq (xs : List Yaml) : Yaml
  | map (kvs : List (String × Yaml)) : Yaml
deriving Repr

/-- Modelled from the spec: a FieldDescriptor of §3 — name, default value and
a loader capability that converts a document node into a typed value or fails
(the `config!` macro that generates descriptors is not under the provided
sources).  Documentation strings are irrelevant to resolution and omitted. -/
structure FieldDescriptor (α : Type) where
  name : String
  default : α
  loader : Yaml → Option α

/-- Modelled from the spec: the Field Resolver of §4.1
(`resolve(descriptor, node: Option<DocumentNode>) -> TypedValue`): an absent
node yields the default; a present node is coerced by the loader, falling
back to the default on coercion failure. -/
def resolve {α : Type} (d : FieldDescriptor α) : Option Yaml → α
  | none => d.default
  | some n => (d.loader n).getD d.default

/-- Modelled from the spec: the file system seen by the Extern Reference
Resolver.  `none` means the path does not exist; `some none` means the file
exists but fails to parse; `some (some y)` means the file parses to root
node `y`. -/
def FileSystem : Type := String → Option (Option Yaml)

/-- Modelled from the spec: the two-step, two-extension search order of §4.2
for a detected sentinel on field `field` relative to directory `dir`:
`<dir>/<field>/config.yml` (and `.yaml`), then `<dir>/<field>.yml`
(and `.yaml`). -/
def searchPaths (dir field : String) : List String :=
  [dir ++ "/" ++ field ++ "/config.yml",
   dir ++ "/" ++ field ++ "/config.yaml",
   dir ++ "/" ++ field ++ ".yml",
   dir ++ "/" ++ field ++ ".yaml"]

/-- Modelled from the spec: the first existing, successfully-parsed file
among the candidate paths wins; paths that do not exist or whose file fails
to parse are passed over. -/
def firstParsed (fs : FileSystem) : List String → Option Yaml
  | [] => none
  | p :: ps =>
    match fs p with
    | some (some y) => some y
    | _ => firstParsed fs ps

/-- Modelled from the spec: a field's node is the sentinel exactly when the
value stored under the field's key is the literal string `extern`
(crate docs: `display: "extern"`). -/
def isSentinel : Yaml → Bool
  | .str s => s == "extern"
  | _ => false

/-- Modelled from the spec: the Extern Reference Resolver of §4.2,
`maybe_dereference(node, field_name, current_dir)`.  A sentinel node is
replaced by the root node of the first existing, successfully-parsed file on
the search path; `none` means no replacement was found and the field is to
be treated as absent.  A non-sentinel node passes through untouched. -/
def maybe_dereference (fs : FileSystem) (dir field : String) (n : Yaml) : Option Yaml :=
  if isSentinel n then firstParsed fs (searchPaths dir field) else some n

/-- Modelled from the spec: the per-field pipeline of §4.3 — the node found
under the field's key (absent when the key is missing) is run through the
Extern Resolver and then the Field Resolver; an absent key, a sentinel with
no backing file, and a coercion failure all yield the descriptor's
default. -/
def resolveField {α : Type} (fs : FileSystem) (dir : String)
    (d : FieldDescriptor α) : Option Yaml → α
  | none => d.default
  | some n =>
    match maybe_dereference fs dir d.name n with
    | none => d.default
    | some n2 => (d.loader n2).getD d.default

/-- Modelled from the spec: keyed child access on the Document Tree; only a
mapping has keyed children. -/
def lookupKey (n : Yaml) (k : String) : Option Yaml :=
  match n with
  | .map kvs => kvs.lookup k
  | _ => none

/-- Modelled from the spec: the enum Materializer of §4.3,
`materialize_enum(allowed_variants, node) -> Variant`.  A scalar string
matching one of the allowed variant names (case-sensitively) selects that
variant; any other node kind or non-matching string falls back to the
schema's configured default variant. -/
def materialize_enum {α : Type} (variants : List (String × α)) (dflt : α) : Yaml → α
  | .str s =>
    match variants.lookup s with
    | some v => v
    | none => dflt
  | _ => dflt

/-- Modelled from the spec: loader for `bool` fields — scalar cast, failing
on any other node kind. -/
def loadBool : Yaml → Option Bool
  | .bool b => some b
  | _ => none

/-- Modelled from the spec: loader for integer fields — exact, no precision
loss. -/
def loadInt : Yaml → Option Int
  | .int i => some i
  | _ => none

/-- Modelled from the spec: loader for `String` fields — exact. -/
def loadStr : Yaml → Option String
  | .str s => some s
  | _ => none

/-- Modelled from the spec: loader for `f64` fields (floats modelled as
rationals). -/
def loadFloat : Yaml → Option ℚ
  | .real r => some r
  | _ => none

/-- Modelled from the spec: loader for `u16` fields — a non-negative integer
scalar in range; a negative or out-of-range integer or any other node kind
fails. -/
def loadU16 : Yaml → Option (Fin 65536)
  | .int (.ofNat n) => if h : n < 65536 then some ⟨n, h⟩ else none
  | _ => none

/-- Modelled from the spec: loader for `(u16, u16)` fields — a fixed-size
sequence decode; a sequence of the wrong length or with a non-decodable
component fails. -/
def loadPairU16 : Yaml → Option (Fin 65536 × Fin 65536)
  | .seq [a, b] => (loadU16 a).bind fun x => (loadU16 b).map fun y => (x, y)
  | _ => none

/-- Modelled from the spec: `Option<T>` loader — `Null` unwraps to `None`,
any other successful decode to `Some`. -/
def loadOpt {α : Type} (l : Yaml → Option α) : Yaml → Option (Option α)
  | .null => some none
  | n => (l n).map some

/-- The `DisplayConfig` schema declared in `src/amethyst_config/src/lib.rs`
(lines 151-163): field names and types as written there, with `u16` as
`Fin 65536` and `f64` as `ℚ`. -/
structure DisplayConfig where
  title : String
  brightness : ℚ
  fullscreen : Bool
  dimensions : Fin 65536 × Fin 65536
  min_dimensions : Option (Fin 65536 × Fin 65536)
  max_dimensions : Option (Fin 65536 × Fin 65536)
  vsync : Bool
  multisampling : Fin 65536
  visibility : Bool
deriving DecidableEq, Repr

/-- Modelled from the spec: the default-everything constructor the `config!`
macro generates for `DisplayConfig` (the macro is not under the provided
sources); each field holds the default declared in
`src/amethyst_config/src/lib.rs` lines 151-163. -/
def DisplayConfig.default : DisplayConfig :=
  { title := "Amethyst game"
    brightness := 1
    fullscreen := false
    dimensions := (1024, 768)
    min_dimensions := none
    max_dimensions := none
    vsync := true
    multisampling := 0
    visibility := true }

/-- The `LoggingConfig` schema declared in `src/amethyst_config/src/lib.rs`
(lines 165-171). -/
structure LoggingConfig where
  file_path : String
  output_level : String
  logging_level : String
deriving DecidableEq, Repr

/-- Modelled from the spec: the default-everything constructor the `config!`
macro generates for `LoggingConfig`; each field holds the default declared
in `src/amethyst_config/src/lib.rs` lines 165-171. -/
def LoggingConfig.default : LoggingConfig :=
  { file_path := "new_project.log"
    output_level := "warn"
    logging_level := "debug" }

/-- Field descriptor for `DisplayConfig.title` (default from lib.rs). -/
def titleD : FieldDescriptor String :=
  ⟨"title", "Amethyst game", loadStr⟩

/-- Field descriptor for `DisplayConfig.brightness` (default from lib.rs). -/
def brightnessD : FieldDescriptor ℚ :=
  ⟨"brightness", 1, loadFloat⟩

/-- Field descriptor for `DisplayConfig.fullscreen` (default from lib.rs). -/
def fullscreenD : FieldDescriptor Bool :=
  ⟨"fullscreen", false, loadBool⟩

/-- Field descriptor for `DisplayConfig.dimensions` (default from lib.rs). -/
def dimensionsD : FieldDescriptor (Fin 65536 × Fin 65536) :=
  ⟨"dimensions", (1024, 768), loadPairU16⟩

/-- Field descriptor for `DisplayConfig.min_dimensions` (default from
lib.rs). -/
def minDimensionsD : FieldDescriptor (Option (Fin 65536 × Fin 65536)) :=
  ⟨"min_dimensions", none, loadOpt loadPairU16⟩

/-- Field descriptor for `DisplayConfig.max_dimensions` (default from
lib.rs). -/
def maxDimensionsD : FieldDescriptor (Option (Fin 65536 × Fin 65536)) :=
  ⟨"max_dimensions", none, loadOpt loadPairU16⟩

/-- Field descriptor for `DisplayConfig.vsync` (default from lib.rs). -/
def vsyncD : FieldDescriptor Bool :=
  ⟨"vsync", true, loadBool⟩

/-- Field descriptor for `DisplayConfig.multisampling` (default from
lib.rs). -/
def multisamplingD : FieldDescriptor (Fin 65536) :=
  ⟨"multisampling", 0, loadU16⟩

/-- Field descriptor for `DisplayConfig.visibility` (default from lib.rs). -/
def visibilityD : FieldDescriptor Bool :=
  ⟨"visibility", true, loadBool⟩

/-- Modelled from the spec: the struct Materializer of §4.3 instantiated at
the `DisplayConfig` schema — for each descriptor, look up its key in the
root node (absent if the root is not a mapping or the key is missing), run
it through the Extern Resolver then the Field Resolver, and assemble the
results positionally.  Each field resolves independently. -/
def materializeDisplay (fs : FileSystem) (dir : String) (root : Yaml) : DisplayConfig :=
  { title := resolveField fs dir titleD (lookupKey root "title")
    brightness := resolveField fs dir brightnessD (lookupKey root "brightness")
    fullscreen := resolveField fs dir fullscreenD (lookupKey root "fullscreen")
    dimensions := resolveField fs dir dimensionsD (lookupKey root "dimensions")
    min_dimensions := resolveField fs dir minDimensionsD (lookupKey root "min_dimensions")
    max_dimensions := resolveField fs dir maxDimensionsD (lookupKey root "max_dimensions")
    vsync := resolveField fs dir vsyncD (lookupKey root "vsync")
    multisampling := resolveField fs dir multisamplingD (lookupKey root "multisampling")
    visibility := resolveField fs dir visibilityD (lookupKey root "visibility") }

/-- Modelled from the spec: document-node form of a `u16` value. -/
def emitU16 (x : Fin 65536) : Yaml := .int x.val

/-- Modelled from the spec: document-node form of a `(u16, u16)` value — a
two-element sequence. -/
def emitPairU16 (p : Fin 65536 × Fin 65536) : Yaml :=
  .seq [emitU16 p.1, emitU16 p.2]

/-- Modelled from the spec: document-node form of an `Option<(u16, u16)>`
value — `None` becomes `Null`. -/
def emitOptPairU16 : Option (Fin 65536 × Fin 65536) → Yaml
  | none => .null
  | some p => emitPairU16 p

/-- Modelled from the spec: the Serializer of §4.4 instantiated at the
`DisplayConfig` schema for a value with no extern-sourced fields — walks the
field descriptors in schema order and emits each field's current value as a
document node (no sentinel is substituted since no ConfigMeta marks any
field as externally sourced). -/
def serializeDisplay (v : DisplayConfig) : Yaml :=
  .map
    [("title", .str v.title),
     ("brightness", .real v.brightness),
     ("fullscreen", .bool v.fullscreen),
     ("dimensions", emitPairU16 v.dimensions),
     ("min_dimensions", emitOptPairU16 v.min_dimensions),
     ("max_dimensions", emitOptPairU16 v.max_dimensions),
     ("vsync", .bool v.vsync),
     ("multisampling", emitU16 v.multisampling),
     ("visibility", .bool v.visibility)]

/-- Sample enum mirroring the crate-docs example: `config! { enum EnumName {
Option1, Option2 } }`. -/
inductive EnumName where
  | Option1 : EnumName
  | Option2 : EnumName
deriving DecidableEq, Repr

/-- Allowed-variant table for `EnumName`, as the `config!` macro would
produce it. -/
def enumNameVariants : List (String × EnumName) :=
  [("Option1", .Option1), ("Option2", .Option2)]

/-- Descriptor for a field holding a nested `DisplayConfig` schema, as used
by the crate-docs example `display: "extern"`; nested-struct loading always
succeeds, materializing against whatever node is present. -/
def displayD (fs : FileSystem) (dir : String) : FieldDescriptor DisplayConfig :=
  ⟨"display", DisplayConfig.default, fun n => some (materializeDisplay fs dir n)⟩

/-- Claim C1: resolving a field whose key is absent from the document
mapping returns the descriptor's default unchanged, and this path never
fails: `resolve(d, None) = d.default`. -/
theorem resolve_absent_eq_default {α : Type} (d : FieldDescriptor α) :
    resolve d none = d.default := rfl

/-- Claim C2: for a present node that cannot be coerced to the descriptor's
declared type (the loader fails), resolution returns the descriptor's
default and never propagates a hard error: `resolve(d, Some(n)) =
d.default`. -/
theorem resolve_coercion_failure_eq_default {α : Type} (d : FieldDescriptor α)
    (n : Yaml) (h : d.loader n = none) : resolve d (some n) = d.default := by
  simp [resolve, h]

/-- Witness for C2: a sequence of the wrong length for the `(u16, u16)`
field `dimensions` fails to coerce and resolves to the default
`(1024, 768)`. -/
theorem resolve_coercion_failure_eq_default_witness :
    dimensionsD.loader (.seq [.int 5]) = none ∧
      resolve dimensionsD (some (.seq [.int 5])) = (1024, 768) :=
  ⟨rfl, resolve_coercion_failure_eq_default dimensionsD (.seq [.int 5]) rfl⟩

/-- Claim C6: for a well-formed node matching the descriptor's type (the
loader succeeds with value `v`), resolution returns exactly the decoded
value; and for integers, strings and booleans the decoding is exact
(identity, no precision loss). -/
theorem resolve_wellformed_eq_decoding :
    (∀ (α : Type) (d : FieldDescriptor α) (n : Yaml) (v : α),
        d.loader n = some v → resolve d (some n) = v) ∧
      (∀ i : Int, loadInt (.int i) = some i) ∧
      (∀ s : String, loadStr (.str s) = some s) ∧
      (∀ b : Bool, loadBool (.bool b) = some b) := by
  refine ⟨?_, fun i => rfl, fun s => rfl, fun b => rfl⟩
  intro α d n v h
  simp [resolve, h]

/-- Witness for C6: a float node decodes on the `brightness` field to
exactly its value. -/
theorem resolve_wellformed_eq_decoding_witness :
    brightnessD.loader (.real 2) = some 2 ∧
      resolve brightnessD (some (.real 2)) = 2 :=
  ⟨rfl, resolve_wellformed_eq_decoding.1 ℚ brightnessD (.real 2) 2 rfl⟩

/-- Claim C5: `materialize_enum` returns the variant whose name exactly
(case-sensitively) matches the scalar string node, and returns the
configured default variant for any non-matching string or any other node
kind. -/
theorem materialize_enum_spec {α : Type} (variants : List (String × α)) (dflt : α) :
    (∀ s v, variants.lookup s = some v →
        materialize_enum variants dflt (.str s) = v) ∧
      (∀ s, variants.lookup s = none →
        materialize_enum variants dflt (.str s) = dflt) ∧
      (∀ n : Yaml, (∀ s, n ≠ .str s) → materialize_enum variants dflt n = dflt) := by
  refine ⟨?_, ?_, ?_⟩
  · intro s v h
    simp [materialize_enum, h]
  · intro s h
    simp [materialize_enum, h]
  · intro n h
    cases n with
    | str s => exact absurd rfl (h s)
    | null => rfl
    | bool b => rfl
    | int i => rfl
    | real r => rfl
    | seq xs => rfl
    | map kvs => rfl

/-- Witness for C5: with allowed set `{Option1, Option2}` and default
`Option2`, the scalar `"Option3"` resolves to `Option2` and the scalar
`"Option1"` resolves to `Option1`. -/
theorem materialize_enum_spec_witness :
    materialize_enum enumNameVariants EnumName.Option2 (.str "Option3") = .Option2 ∧
      materialize_enum enumNameVariants EnumName.Option2 (.str "Option1") = .Option1 :=
  ⟨(materialize_enum_spec enumNameVariants .Option2).2.1 "Option3" rfl,
   (materialize_enum_spec enumNameVariants .Option2).1 "Option1" .Option1 rfl⟩

/-- Helper: when no candidate path holds an existing, successfully-parsed
file, the search comes up empty. -/
theorem firstParsed_eq_none (fs : FileSystem) (ps : List String)
    (h : ∀ p ∈ ps, ∀ y, fs p ≠ some (some y)) : firstParsed fs ps = none := by
  induction ps with
  | nil => rfl
  | cons p ps ih =>
    have hp := h p (List.mem_cons_self p ps)
    have ht : firstParsed fs ps = none :=
      ih fun q hq => h q (List.mem_cons_of_mem p hq)
    unfold firstParsed
    cases hfp : fs p with
    | none => exact ht
    | some o =>
      cases o with
      | none => exact ht
      | some y => exact absurd hfp (hp y)

/-- Claim C3: on a detected sentinel for field `f` in directory `dir`, the
resolver searches `<dir>/<f>/config.yml` (then `.yaml`) before
`<dir>/<f>.yml` (then `.yaml`); the first existing, successfully-parsed
file's root node replaces the sentinel.  In particular an existing, parsed
`<f>/config.yml` is chosen no matter what lies at `<f>.yml`, and `<f>.yml`
is reached only when both `config.yml` and `config.yaml` yield nothing. -/
theorem extern_search_order (fs : FileSystem) (dir f : String) :
    (∀ y, fs (dir ++ "/" ++ f ++ "/config.yml") = some (some y) →
        maybe_dereference fs dir f (.str "extern") = some y) ∧
      (∀ y, (∀ y', fs (dir ++ "/" ++ f ++ "/config.yml") ≠ some (some y')) →
        (∀ y', fs (dir ++ "/" ++ f ++ "/config.yaml") ≠ some (some y')) →
        fs (dir ++ "/" ++ f ++ ".yml") = some (some y) →
        maybe_dereference fs dir f (.str "extern") = some y) := by
  constructor
  · intro y h
    have hext : (("extern" : String) == "extern") = true := rfl
    simp only [maybe_dereference, isSentinel]
    rw [if_pos hext]
    unfold searchPaths firstParsed
    rw [h]
  · intro y h1 h2 h3
    have hext : (("extern" : String) == "extern") = true := rfl
    simp only [maybe_dereference, isSentinel]
    rw [if_pos hext]
    unfold searchPaths
    unfold firstParsed
    cases hfp : fs (dir ++ "/" ++ f ++ "/config.yml") with
    | none =>
      unfold firstParsed
      cases hfp2 : fs (dir ++ "/" ++ f ++ "/config.yaml") with
      | none => unfold firstParsed; rw [h3]
      | some o =>
        cases o with
        | none => unfold firstParsed; rw [h3]
        | some y' => exact absurd hfp2 (h2 y')
    | some o =>
      cases o with
      | none =>
        unfold firstParsed
        cases hfp2 : fs (dir ++ "/" ++ f ++ "/config.yaml") with
        | none => unfold firstParsed; rw [h3]
        | some o2 =>
          cases o2 with
          | none => unfold firstParsed; rw [h3]
          | some y' => exact absurd hfp2 (h2 y')
      | some y' => exact absurd hfp (h1 y')

/-- Witness for C3: with `cfg/display/config.yml` parsing to one node and
`cfg/display.yml` parsing to another, the sentinel resolves to the
`config.yml` node. -/
theorem extern_search_order_witness :
    maybe_dereference
        (fun p =>
          if p == "cfg/display/config.yml" then some (some (.int 1))
          else if p == "cfg/display.yml" then some (some (.int 2))
          else none)
        "cfg" "display" (.str "extern") = some (.int 1) :=
  (extern_search_order
      (fun p =>
        if p == "cfg/display/config.yml" then some (some (.int 1))
        else if p == "cfg/display.yml" then some (some (.int 2))
        else none)
      "cfg" "display").1 (.int 1) rfl

/-- Claim C4: when a sentinel is detected but no search path yields an
existing, successfully-parsed file, the field is treated exactly as an
absent key and resolves to the descriptor's default; resolution is total,
so the rest of the load completes. -/
theorem extern_fallback_default {α : Type} (fs : FileSystem) (dir : String)
    (d : FieldDescriptor α)
    (h : ∀ p ∈ searchPaths dir d.name, ∀ y, fs p ≠ some (some y)) :
    resolveField fs dir d (some (.str "extern")) = d.default := by
  have hext : (("extern" : String) == "extern") = true := rfl
  simp only [resolveField, maybe_dereference, isSentinel]
  rw [if_pos hext, firstParsed_eq_none fs _ h]

/-- Witness for C4: field `display` declared as a nested `DisplayConfig`
schema, document node `display: "extern"`, no file on the file system — the
field resolves to the nested-schema default. -/
theorem extern_fallback_default_witness :
    resolveField (fun _ => none) "." (displayD (fun _ => none) ".")
        (some (.str "extern")) = DisplayConfig.default :=
  extern_fallback_default (fun _ => none) "." (displayD (fun _ => none) ".")
    (by intro p hp y hc; exact Option.noConfusion hc)

/-- Claim C8: extern resolution is idempotent against an unchanged file
system — applying `maybe_dereference` to the node a dereference produced
yields that same node again, so resolving the same sentinel twice gives
structurally equal root nodes. -/
theorem maybe_dereference_idempotent (fs : FileSystem) (dir f : String)
    (n n' : Yaml) (h : maybe_dereference fs dir f n = some n') :
    maybe_dereference fs dir f n' = some n' := by
  unfold maybe_dereference at h ⊢
  by_cases hs : isSentinel n = true
  · rw [if_pos hs] at h
    by_cases hs' : isSentinel n' = true
    · rw [if_pos hs']
      exact h
    · rw [if_neg hs']
  · rw [if_neg hs] at h
    cases h
    rw [if_neg hs]

/-- Witness for C8: with every path parsing to `Null`, the sentinel
dereferences to `Null`, and dereferencing that result yields `Null`
again. -/
theorem maybe_dereference_idempotent_witness :
    maybe_dereference (fun _ => some (some .null)) "." "display"
        (.str "extern") = some .null ∧
      maybe_dereference (fun _ => some (some .null)) "." "display"
        .null = some .null :=
  ⟨rfl,
   maybe_dereference_idempotent (fun _ => some (some .null)) "." "display"
     (.str "extern") .null rfl⟩

/-- Helper: unfolding of `resolveField` on a present node. -/
theorem resolveField_some {α : Type} (fs : FileSystem) (dir : String)
    (d : FieldDescriptor α) (n : Yaml) :
    resolveField fs dir d (some n) =
      match maybe_dereference fs dir d.name n with
      | none => d.default
      | some n2 => (d.loader n2).getD d.default := rfl

/-- Helper: the `u16` loader inverts the `u16` emitter. -/
theorem loadU16_emitU16 (x : Fin 65536) : loadU16 (emitU16 x) = some x := by
  show (if h : x.val < 65536 then some (⟨x.val, h⟩ : Fin 65536) else none) = some x
  rw [dif_pos x.isLt]

/-- Helper: the `(u16, u16)` loader inverts the pair emitter. -/
theorem loadPairU16_emitPairU16 (p : Fin 65536 × Fin 65536) :
    loadPairU16 (emitPairU16 p) = some p := by
  obtain ⟨a, b⟩ := p
  show (loadU16 (emitU16 a)).bind
      (fun x => (loadU16 (emitU16 b)).map fun y => (x, y)) = some (a, b)
  simp only [loadU16_emitU16]
  rfl

/-- Helper: the `Option<(u16, u16)>` loader inverts the option emitter. -/
theorem loadOpt_emitOptPairU16 (o : Option (Fin 65536 × Fin 65536)) :
    loadOpt loadPairU16 (emitOptPairU16 o) = some o := by
  cases o with
  | none => rfl
  | some p =>
    show (loadPairU16 (emitPairU16 p)).map some = some (some p)
    rw [loadPairU16_emitPairU16]
    rfl

/-- Helper: emitted option-pair nodes are never the extern sentinel. -/
theorem isSentinel_emitOptPairU16 (o : Option (Fin 65536 × Fin 65536)) :
    isSentinel (emitOptPairU16 o) = false := by
  cases o <;> rfl

/-- Helper: a non-sentinel node passes through the Extern Resolver
untouched. -/
theorem deref_pass (fs : FileSystem) (dir f : String) (n : Yaml)
    (h : isSentinel n = false) : maybe_dereference fs dir f n = some n := by
  unfold maybe_dereference
  rw [h]
  rfl

/-- Helper: a present non-sentinel node that the loader decodes resolves to
exactly the decoded value. -/
theorem resolveField_pass {α : Type} (fs : FileSystem) (dir : String)
    (d : FieldDescriptor α) (n : Yaml) (v : α)
    (hs : isSentinel n = false) (hl : d.loader n = some v) :
    resolveField fs dir d (some n) = v := by
  rw [resolveField_some, deref_pass fs dir d.name n hs]
  show (d.loader n).getD d.default = v
  rw [hl]
  rfl

/-- Amended claim C7: serialization followed by materialization against the
same schema is the identity for a `DisplayConfig` with no extern-sourced
fields, provided additionally that no string-typed field's value equals the
literal extern sentinel (the parser is the external collaborator of §6 and
is modelled as the identity on document trees). -/
theorem display_roundtrip (fs : FileSystem) (dir : String) (v : DisplayConfig)
    (h : v.title ≠ "extern") :
    materializeDisplay fs dir (serializeDisplay v) = v := by
  obtain ⟨t, br, fu, di, mi, ma, vs, mu, vi⟩ := v
  have ht : isSentinel (.str t) = false := beq_eq_false_iff_ne.mpr h
  unfold materializeDisplay
  simp only [DisplayConfig.mk.injEq]
  refine ⟨?_, ?_, ?_, ?_, ?_, ?_, ?_, ?_, ?_⟩
  · exact resolveField_pass fs dir titleD (.str t) t ht rfl
  · exact resolveField_pass fs dir brightnessD (.real br) br rfl rfl
  · exact resolveField_pass fs dir fullscreenD (.bool fu) fu rfl rfl
  · exact resolveField_pass fs dir dimensionsD (emitPairU16 di) di rfl
      (loadPairU16_emitPairU16 di)
  · exact resolveField_pass fs dir minDimensionsD (emitOptPairU16 mi) mi
      (isSentinel_emitOptPairU16 mi) (loadOpt_emitOptPairU16 mi)
  · exact resolveField_pass fs dir maxDimensionsD (emitOptPairU16 ma) ma
      (isSentinel_emitOptPairU16 ma) (loadOpt_emitOptPairU16 ma)
  · exact resolveField_pass fs dir vsyncD (.bool vs) vs rfl rfl
  · exact resolveField_pass fs dir multisamplingD (emitU16 mu) mu rfl
      (loadU16_emitU16 mu)
  · exact resolveField_pass fs dir visibilityD (.bool vi) vi rfl rfl

/-- Witness for the amended C7: a concrete config, every field away from its
default, survives the serialize/materialize round trip. -/
theorem display_roundtrip_witness :
    ("My game" : String) ≠ "extern" ∧
      materializeDisplay (fun _ => none) "."
          (serializeDisplay
            ⟨"My game", 1/2, true, (800, 600), some (1, 2), some (3, 4),
              false, 4, false⟩) =
        ⟨"My game", 1/2, true, (800, 600), some (1, 2), some (3, 4),
          false, 4, false⟩ :=
  ⟨by decide,
   display_roundtrip (fun _ => none) "."
     ⟨"My game", 1/2, true, (800, 600), some (1, 2), some (3, 4),
       false, 4, false⟩ (by decide)⟩

/-- Counterexample to C7 as stated: the config equal to the default except
for `title := "extern"` has no extern-sourced field and is representable,
yet serializing emits the scalar `"extern"`, which materialization treats as
an extern sentinel; with no backing file the field falls back to the default
title, so the round trip is not the identity. -/
theorem display_roundtrip_cex :
    materializeDisplay (fun _ => none) "."
        (serializeDisplay { DisplayConfig.default with title := "extern" }) ≠
      { DisplayConfig.default with title := "extern" } := by
  intro hc
  have h1 := congrArg DisplayConfig.title hc
  exact absurd h1 (by decide)

/-- Claim C9: every field of a materialized config either equals a value the
field's loader type-correctly decoded from a document node or equals the
descriptor's exact default; concretely, for `brightness: f64 = 1.0`, an
omitted key resolves to `1.0`, the wrong-typed value `"bright"` resolves to
`1.0`, and the value `0.5` resolves to `0.5`. -/
theorem resolved_field_invariant :
    (∀ (α : Type) (fs : FileSystem) (dir : String) (d : FieldDescriptor α)
        (node : Option Yaml),
        resolveField fs dir d node = d.default ∨
          ∃ n, d.loader n = some (resolveField fs dir d node)) ∧
      (∀ (fs : FileSystem) (dir : String),
        (materializeDisplay fs dir (.map [])).brightness = 1) ∧
      (∀ (fs : FileSystem) (dir : String),
        (materializeDisplay fs dir
            (.map [("brightness", .str "bright")])).brightness = 1) ∧
      (∀ (fs : FileSystem) (dir : String),
        (materializeDisplay fs dir
            (.map [("brightness", .real (1/2))])).brightness = 1/2) := by
  refine ⟨?_, fun fs dir => rfl, fun fs dir => rfl, fun fs dir => rfl⟩
  intro α fs dir d node
  cases node with
  | none => exact Or.inl rfl
  | some n =>
    rw [resolveField_some]
    cases hd : maybe_dereference fs dir d.name n with
    | none => exact Or.inl rfl
    | some n2 =>
      show (d.loader n2).getD d.default = d.default ∨
        ∃ m, d.loader m = some ((d.loader n2).getD d.default)
      cases hl : d.loader n2 with
      | none => exact Or.inl rfl
      | some v =>
        refine Or.inr ⟨n2, ?_⟩
        rw [hl]
        rfl

/-- Claim C10: the default-everything constructors yield exactly the
per-field defaults declared in `src/amethyst_config/src/lib.rs`: for
`DisplayConfig` the title `"Amethyst game"`, brightness `1.0`, fullscreen
`false`, dimensions `(1024, 768)`, no min/max dimensions, vsync `true`,
multisampling `0`, visibility `true`; for `LoggingConfig` the file path
`"new_project.log"`, output level `"warn"`, logging level `"debug"`. -/
theorem config_defaults :
    DisplayConfig.default.title = "Amethyst game" ∧
      DisplayConfig.default.brightness = 1 ∧
      DisplayConfig.default.fullscreen = false ∧
      DisplayConfig.default.dimensions = (1024, 768) ∧
      DisplayConfig.default.min_dimensions = none ∧
      DisplayConfig.default.max_dimensions = none ∧
      DisplayConfig.default.vsync = true ∧
      DisplayConfig.default.multisampling = 0 ∧
      DisplayConfig.default.visibility = true ∧
      LoggingConfig.default.file_path = "new_project.log" ∧
      LoggingConfig.default.output_level = "warn" ∧
      LoggingConfig.default.logging_level = "debug" :=
  ⟨rfl, rfl, rfl, rfl, rfl, rfl, rfl, rfl, rfl, rfl, rfl, rfl⟩

end Amethyst
